import Mathlib

/-! PCT2075 temperature-sensor driver: register codec and configuration checks.

A shallow embedding of `pct2075.h` / `pct2075.c`.

* C integers are natural numbers; a conversion to `uint8_t` / `uint16_t` is an
  explicit `% 256` / `% 65536`, and a shift of a 32-bit enumeration object is
  taken modulo `2 ^ 32`.
* The bus primitive `PCT2075_Write` has an empty body in the source (it is the
  place where the integrator puts the I2C commands); here it appends the call
  to a trace, so that the calls made by `PCT2075_Config` can be observed.
* `assert` is taken as active (the source does not define `NDEBUG`): a failed
  assertion stops the program at that point.
-/

namespace PCT2075

/-! ## pct2075.h : enumerators -/

def PACK_8_PIN_ADDR_1 : Nat := 0b10010000
def PACK_8_PIN_ADDR_2 : Nat := 0b10010010
def PACK_8_PIN_ADDR_3 : Nat := 0b10010100
def PACK_8_PIN_ADDR_4 : Nat := 0b10010110
def PACK_8_PIN_ADDR_5 : Nat := 0b10011000
def PACK_8_PIN_ADDR_6 : Nat := 0b10011010
def PACK_8_PIN_ADDR_7 : Nat := 0b10011100
def PACK_8_PIN_ADDR_8 : Nat := 0b10011110
def PACK_8_PIN_ADDR_9 : Nat := 0b10100000
def PACK_8_PIN_ADDR_10 : Nat := 0b10100010
def PACK_8_PIN_ADDR_11 : Nat := 0b10100100
def PACK_8_PIN_ADDR_12 : Nat := 0b10100110
def PACK_8_PIN_ADDR_13 : Nat := 0b10101000
def PACK_8_PIN_ADDR_14 : Nat := 0b10101010
def PACK_8_PIN_ADDR_15 : Nat := 0b10101100
def PACK_8_PIN_ADDR_16 : Nat := 0b10101110
def PACK_8_PIN_ADDR_17 : Nat := 0b01010000
def PACK_8_PIN_ADDR_18 : Nat := 0b01010010
def PACK_8_PIN_ADDR_19 : Nat := 0b01010100
def PACK_8_PIN_ADDR_20 : Nat := 0b01010110
def PACK_8_PIN_ADDR_21 : Nat := 0b01011000
def PACK_8_PIN_ADDR_22 : Nat := 0b01011010
def PACK_8_PIN_ADDR_23 : Nat := 0b01011100
def PACK_8_PIN_ADDR_24 : Nat := 0b01011110
def PACK_8_PIN_ADDR_25 : Nat := 0b01101010
def PACK_8_PIN_ADDR_26 : Nat := 0b01101100
def PACK_8_PIN_ADDR_27 : Nat := 0b01101110
def PACK_6_PIN_ADDR_1 : Nat := 0b10010000
def PACK_6_PIN_ADDR_2 : Nat := 0b10010010
def PACK_6_PIN_ADDR_3 : Nat := 0b10010100

def OS_F_QUE_00 : Nat := 0x00
def OS_F_QUE_01 : Nat := 0x01
def OS_F_QUE_10 : Nat := 0x10
def OS_F_QUE_11 : Nat := 0x11

def OS_POL_L : Nat := 0x0
def OS_POL_H : Nat := 0x1

def OS_OP_MODE_COMP : Nat := 0x0
def OS_OP_MODE_INT : Nat := 0x1

def OP_MODE_NORMAL : Nat := 0x0
def OP_MODE_SHUTDOWN : Nat := 0x1

/-- The thirty enumerators of `PCT2075_Id_t`, in declaration order. -/
def PCT2075_Id_t_values : List Nat :=
  [PACK_8_PIN_ADDR_1, PACK_8_PIN_ADDR_2, PACK_8_PIN_ADDR_3, PACK_8_PIN_ADDR_4,
   PACK_8_PIN_ADDR_5, PACK_8_PIN_ADDR_6, PACK_8_PIN_ADDR_7, PACK_8_PIN_ADDR_8,
   PACK_8_PIN_ADDR_9, PACK_8_PIN_ADDR_10, PACK_8_PIN_ADDR_11, PACK_8_PIN_ADDR_12,
   PACK_8_PIN_ADDR_13, PACK_8_PIN_ADDR_14, PACK_8_PIN_ADDR_15, PACK_8_PIN_ADDR_16,
   PACK_8_PIN_ADDR_17, PACK_8_PIN_ADDR_18, PACK_8_PIN_ADDR_19, PACK_8_PIN_ADDR_20,
   PACK_8_PIN_ADDR_21, PACK_8_PIN_ADDR_22, PACK_8_PIN_ADDR_23, PACK_8_PIN_ADDR_24,
   PACK_8_PIN_ADDR_25, PACK_8_PIN_ADDR_26, PACK_8_PIN_ADDR_27,
   PACK_6_PIN_ADDR_1, PACK_6_PIN_ADDR_2, PACK_6_PIN_ADDR_3]

/-- The enumerators of `Os_F_Que_t`. -/
def Os_F_Que_t_values : List Nat := [OS_F_QUE_00, OS_F_QUE_01, OS_F_QUE_10, OS_F_QUE_11]

/-- The enumerators of `Os_Pol_t`. -/
def Os_Pol_t_values : List Nat := [OS_POL_L, OS_POL_H]

/-- The enumerators of `Os_Op_Mode_t`. -/
def Os_Op_Mode_t_values : List Nat := [OS_OP_MODE_COMP, OS_OP_MODE_INT]

/-- The enumerators of `Op_Mode_t`. -/
def Op_Mode_t_values : List Nat := [OP_MODE_NORMAL, OP_MODE_SHUTDOWN]

/-- The device record `PCT2075_t`, fields in declaration order.  `Hyst`, `OS`
and `Idle` are `uint16_t` in the source (values below 65536).  The other five
fields have enumeration types.  No enumerator is negative, so such an object
is a 32-bit `unsigned int`, and C lets it hold any value below `2 ^ 32`, not
only the enumerators; arithmetic on these fields is done modulo `2 ^ 32`
(see `wrap32`). -/
structure PCT2075_t where
  Id : Nat
  Hyst : Nat
  OS : Nat
  Idle : Nat
  OS_F_QUE : Nat
  OS_POL : Nat
  OS_OP_MODE : Nat
  OP_MODE : Nat
deriving DecidableEq, Repr

/-! ## pct2075.c : private definitions -/

def TEMP_Reg : Nat := 0x00
def CONF_Reg : Nat := 0x01
def HYST_Reg : Nat := 0x02
def OS_Reg : Nat := 0x03
def IDLE_Reg : Nat := 0x04

/-- The macro `IS_PCT2075_ID`: a disjunction of thirty comparisons. -/
def IS_PCT2075_ID (ID : Nat) : Bool :=
  (PACK_8_PIN_ADDR_1 == ID) || (PACK_8_PIN_ADDR_2 == ID) || (PACK_8_PIN_ADDR_3 == ID) ||
  (PACK_8_PIN_ADDR_4 == ID) || (PACK_8_PIN_ADDR_5 == ID) || (PACK_8_PIN_ADDR_6 == ID) ||
  (PACK_8_PIN_ADDR_7 == ID) || (PACK_8_PIN_ADDR_8 == ID) || (PACK_8_PIN_ADDR_9 == ID) ||
  (PACK_8_PIN_ADDR_10 == ID) || (PACK_8_PIN_ADDR_11 == ID) || (PACK_8_PIN_ADDR_12 == ID) ||
  (PACK_8_PIN_ADDR_13 == ID) || (PACK_8_PIN_ADDR_14 == ID) || (PACK_8_PIN_ADDR_15 == ID) ||
  (PACK_8_PIN_ADDR_16 == ID) || (PACK_8_PIN_ADDR_17 == ID) || (PACK_8_PIN_ADDR_18 == ID) ||
  (PACK_8_PIN_ADDR_19 == ID) || (PACK_8_PIN_ADDR_20 == ID) || (PACK_8_PIN_ADDR_21 == ID) ||
  (PACK_8_PIN_ADDR_22 == ID) || (PACK_8_PIN_ADDR_23 == ID) || (PACK_8_PIN_ADDR_24 == ID) ||
  (PACK_8_PIN_ADDR_25 == ID) || (PACK_8_PIN_ADDR_26 == ID) || (PACK_8_PIN_ADDR_27 == ID) ||
  (PACK_6_PIN_ADDR_1 == ID) || (PACK_6_PIN_ADDR_2 == ID) || (PACK_6_PIN_ADDR_3 == ID)

/-- The macro `IS_OS_F_QUE`. -/
def IS_OS_F_QUE (F_QUE : Nat) : Bool :=
  (OS_F_QUE_00 == F_QUE) || (OS_F_QUE_01 == F_QUE) || (OS_F_QUE_10 == F_QUE) ||
  (OS_F_QUE_11 == F_QUE)

/-- The macro `IS_OS_POL`. -/
def IS_OS_POL (POL : Nat) : Bool := (OS_POL_L == POL) || (OS_POL_H == POL)

/-- The macro `IS_OS_OP_MODE`. -/
def IS_OS_OP_MODE (MODE : Nat) : Bool := (OS_OP_MODE_COMP == MODE) || (OS_OP_MODE_INT == MODE)

/-- The macro `IS_OP_MODE`. -/
def IS_OP_MODE (MODE : Nat) : Bool := (OP_MODE_NORMAL == MODE) || (OP_MODE_SHUTDOWN == MODE)

/-- C's logical `a && b` on integers: 1 when both operands are non-zero, else 0. -/
def logicalAnd (a b : Nat) : Nat := if a ≠ 0 ∧ b ≠ 0 then 1 else 0

/-- The result of an `unsigned int` operation: the value modulo `2 ^ 32`. -/
def wrap32 (n : Nat) : Nat := n % 4294967296

/-- `Set_Conf_Reg_Value`: each shift is done on a 32-bit enumeration object
and wraps modulo `2 ^ 32`; the four terms are OR-ed together and the result is
combined with `0b00011111` by the logical `&&` of the source; the return type
is `uint8_t`. -/
def Set_Conf_Reg_Value (device : PCT2075_t) : Nat :=
  (logicalAnd
    (device.OP_MODE ||| wrap32 (device.OS_OP_MODE <<< 1) ||| wrap32 (device.OS_POL <<< 2)
      ||| wrap32 (device.OS_F_QUE <<< 3))
    0b00011111) % 256

/-- `Set_Hyst_Reg_Value`: `(uint16_t)(device->Hyst << 7)`. -/
def Set_Hyst_Reg_Value (device : PCT2075_t) : Nat := (device.Hyst <<< 7) % 65536

/-- `Set_OS_Reg_Value`: `(uint16_t)(device->OS << 7)`. -/
def Set_OS_Reg_Value (device : PCT2075_t) : Nat := (device.OS <<< 7) % 65536

/-- `Set_Idle_Value`: `(uint8_t)(device->Idle && (0b00011111))`. -/
def Set_Idle_Value (device : PCT2075_t) : Nat := (logicalAnd device.Idle 0b00011111) % 256

/-- One call of `PCT2075_Write`: its three arguments. -/
structure WriteCall where
  id : Nat
  reg : Nat
  data : Nat
deriving DecidableEq, Repr

/-- `PCT2075_Write`: the call is appended to the trace of bus writes. -/
def PCT2075_Write (id reg data : Nat) (bus : List WriteCall) : List WriteCall :=
  bus ++ [{ id := id, reg := reg, data := data }]

/-- The five assertions of `PCT2075_Config`, in source order. -/
inductive Check where
  | Id
  | OP_MODE
  | OS_OP_MODE
  | OS_POL
  | OS_F_QUE
deriving DecidableEq, Repr

/-- How a call of `PCT2075_Config` ends: it returns, or one assertion fails. -/
inductive Outcome where
  | returned
  | assertFailed (check : Check)
deriving DecidableEq, Repr

/-- `PCT2075_Config`: five assertions, then six bus writes.  The second
component is the trace of bus writes after the call. -/
def PCT2075_Config (device : PCT2075_t) (bus : List WriteCall) : Outcome × List WriteCall :=
  if !IS_PCT2075_ID device.Id then (Outcome.assertFailed Check.Id, bus)
  else if !IS_OP_MODE device.OP_MODE then (Outcome.assertFailed Check.OP_MODE, bus)
  else if !IS_OS_OP_MODE device.OS_OP_MODE then (Outcome.assertFailed Check.OS_OP_MODE, bus)
  else if !IS_OS_POL device.OS_POL then (Outcome.assertFailed Check.OS_POL, bus)
  else if !IS_OS_F_QUE device.OS_F_QUE then (Outcome.assertFailed Check.OS_F_QUE, bus)
  else
    let conf_value := Set_Conf_Reg_Value device
    let hyst_value := Set_Hyst_Reg_Value device
    let os_value := Set_OS_Reg_Value device
    let idle_value := Set_Idle_Value device
    let bus := PCT2075_Write device.Id CONF_Reg conf_value bus
    let bus := PCT2075_Write device.Id HYST_Reg ((hyst_value >>> 8) % 256) bus
    let bus := PCT2075_Write device.Id HYST_Reg (hyst_value % 256) bus
    let bus := PCT2075_Write device.Id OS_Reg ((os_value >>> 8) % 256) bus
    let bus := PCT2075_Write device.Id OS_Reg (os_value % 256) bus
    let bus := PCT2075_Write device.Id IDLE_Reg idle_value bus
    (Outcome.returned, bus)

/-- The five checks of `PCT2075_Config` taken together. -/
def passesChecks (device : PCT2075_t) : Bool :=
  IS_PCT2075_ID device.Id && IS_OP_MODE device.OP_MODE && IS_OS_OP_MODE device.OS_OP_MODE
    && IS_OS_POL device.OS_POL && IS_OS_F_QUE device.OS_F_QUE

/-! ## pct2075.c : reading the temperature

`PCT2075_Read` computes, in `float`,
`temporary = (((i2c_result[0] << 8) + i2c_result[1]) >> 5) * 0.125f` and returns
`(int8_t)temporary`.  For two bytes the shifted integer is below `2 ^ 11`, and
`0.125f` is `2 ^ (-3)`, so the `float` product is exact; it is modelled by the
same product in the rationals. -/

/-- Conversion of a real value to an integer discards the fractional part. -/
def truncate (q : ℚ) : Int := if 0 ≤ q then ⌊q⌋ else ⌈q⌉

/-- The cast `(int8_t)q` of a floating value: the fractional part is discarded;
C leaves the conversion undefined when the integral part is not an `int8_t`
value, which is `none` here. -/
def toInt8 (q : ℚ) : Option Int :=
  if -128 ≤ truncate q ∧ truncate q ≤ 127 then some (truncate q) else none

/-- The value of the local `temporary` of `PCT2075_Read` for the buffer
`i2c_result = {i2c_result0, i2c_result1}`. -/
def temporary (i2c_result0 i2c_result1 : Nat) : ℚ :=
  ((((i2c_result0 <<< 8) + i2c_result1) >>> 5 : Nat) : ℚ) * 0.125

/-- The last two statements of `PCT2075_Read` (the decode expression and the
cast of the return), as a function of the two bytes of `i2c_result`. -/
def PCT2075_Read_decode (i2c_result0 i2c_result1 : Nat) : Option Int :=
  toInt8 (temporary i2c_result0 i2c_result1)

/-- `PCT2075_Read` as in the source: the bus read is left to the integrator,
so `i2c_result` still holds its initial value `{0, 0}` when it is decoded. -/
def PCT2075_Read (_device : PCT2075_t) : Option Int := PCT2075_Read_decode 0 0

/-! ## Reference values taken from the specification -/

/-- The integer part of `(((msb << 8) | lsb) >> 5) * 0.125`. -/
def integerPartOfReading (msb lsb : Nat) : Int :=
  ⌊((((msb <<< 8) ||| lsb) >>> 5 : Nat) : ℚ) * 0.125⌋

/-- The signed physical temperature of a raw reading: the top 11 bits of the
big-endian 16-bit value, read as an 11-bit two's-complement count, times
0.125 degrees Celsius, truncated toward zero. -/
def signedTemperature (msb lsb : Nat) : Int :=
  let top11 : Nat := ((msb <<< 8) ||| lsb) >>> 5
  let count : Int := if top11 < 1024 then (top11 : Int) else (top11 : Int) - 2048
  truncate ((count : ℚ) * 0.125)

/-- The fields checked by `PCT2075_Config`, in the order of its assertions. -/
def checkOrder : List Check :=
  [Check.Id, Check.OP_MODE, Check.OS_OP_MODE, Check.OS_POL, Check.OS_F_QUE]

/-- The field of the record that an assertion looks at. -/
def fieldOf (device : PCT2075_t) : Check → Nat
  | Check.Id => device.Id
  | Check.OP_MODE => device.OP_MODE
  | Check.OS_OP_MODE => device.OS_OP_MODE
  | Check.OS_POL => device.OS_POL
  | Check.OS_F_QUE => device.OS_F_QUE

/-- The enumeration a checked field belongs to. -/
def enumerationOf : Check → List Nat
  | Check.Id => PCT2075_Id_t_values
  | Check.OP_MODE => Op_Mode_t_values
  | Check.OS_OP_MODE => Os_Op_Mode_t_values
  | Check.OS_POL => Os_Pol_t_values
  | Check.OS_F_QUE => Os_F_Que_t_values

/-- The earliest field, in the order Id, OP_MODE, OS_OP_MODE, OS_POL,
OS_F_QUE, whose value is outside its enumeration; `none` when every field
holds an enumerator. -/
def firstInvalidField (device : PCT2075_t) : Option Check :=
  checkOrder.find? (fun c => !(enumerationOf c).contains (fieldOf device c))

/-- The data bytes of the writes of a trace that go to register `reg`, in
call order. -/
def dataWrittenTo (reg : Nat) (bus : List WriteCall) : List Nat :=
  (bus.filter (fun w => w.reg == reg)).map (fun w => w.data)

/-! ## Sample records -/

/-- A record that passes the five checks: first 8-pin address, interrupt mode,
every other mode field zero, `Idle = 0xFF`. -/
def interruptModeDevice : PCT2075_t :=
  { Id := PACK_8_PIN_ADDR_1, Hyst := 4, OS := 5, Idle := 0xFF, OS_F_QUE := OS_F_QUE_00,
    OS_POL := OS_POL_L, OS_OP_MODE := OS_OP_MODE_INT, OP_MODE := OP_MODE_NORMAL }

/-- The record `interruptModeDevice` with the fault-queue field set to 5, a
value outside `Os_F_Que_t`. -/
def badFaultQueueDevice : PCT2075_t := { interruptModeDevice with OS_F_QUE := 5 }

/-- The record `interruptModeDevice` with the fault-queue field set to the
enumerator `OS_F_QUE_10`; it passes the five checks. -/
def faultQueue10Device : PCT2075_t := { interruptModeDevice with OS_F_QUE := OS_F_QUE_10 }

/-- The record `interruptModeDevice` with `Hyst = 200` above `OS = 100`. -/
def hystAboveOsDevice : PCT2075_t := { interruptModeDevice with Hyst := 200, OS := 100 }

/-- A record whose fault-queue object holds `0x20000000` and whose other mode
fields are zero: `OS_F_QUE << 3` is `2 ^ 32`, which wraps to 0. -/
def wrappingFaultQueueDevice : PCT2075_t :=
  { Id := PACK_8_PIN_ADDR_1, Hyst := 4, OS := 5, Idle := 0xFF, OS_F_QUE := 0x20000000,
    OS_POL := OS_POL_L, OS_OP_MODE := OS_OP_MODE_COMP, OP_MODE := OP_MODE_NORMAL }

/-- A record whose `Id` is valid and whose `OP_MODE` (7) and `OS_F_QUE` (5)
are both outside their enumerations. -/
def twoBadFieldsDevice : PCT2075_t := { interruptModeDevice with OP_MODE := 7, OS_F_QUE := 5 }

/-! ## Auxiliary facts -/

theorem IS_PCT2075_ID_iff (v : Nat) : IS_PCT2075_ID v = true ↔ v ∈ PCT2075_Id_t_values := by
  simp only [IS_PCT2075_ID, PCT2075_Id_t_values, Bool.or_eq_true, beq_iff_eq, List.mem_cons,
    List.mem_singleton, List.not_mem_nil, or_false,
    PACK_8_PIN_ADDR_1, PACK_8_PIN_ADDR_2, PACK_8_PIN_ADDR_3, PACK_8_PIN_ADDR_4,
    PACK_8_PIN_ADDR_5, PACK_8_PIN_ADDR_6, PACK_8_PIN_ADDR_7, PACK_8_PIN_ADDR_8,
    PACK_8_PIN_ADDR_9, PACK_8_PIN_ADDR_10, PACK_8_PIN_ADDR_11, PACK_8_PIN_ADDR_12,
    PACK_8_PIN_ADDR_13, PACK_8_PIN_ADDR_14, PACK_8_PIN_ADDR_15, PACK_8_PIN_ADDR_16,
    PACK_8_PIN_ADDR_17, PACK_8_PIN_ADDR_18, PACK_8_PIN_ADDR_19, PACK_8_PIN_ADDR_20,
    PACK_8_PIN_ADDR_21, PACK_8_PIN_ADDR_22, PACK_8_PIN_ADDR_23, PACK_8_PIN_ADDR_24,
    PACK_8_PIN_ADDR_25, PACK_8_PIN_ADDR_26, PACK_8_PIN_ADDR_27,
    PACK_6_PIN_ADDR_1, PACK_6_PIN_ADDR_2, PACK_6_PIN_ADDR_3]
  omega

theorem IS_OS_F_QUE_iff (v : Nat) : IS_OS_F_QUE v = true ↔ v ∈ Os_F_Que_t_values := by
  simp only [IS_OS_F_QUE, Os_F_Que_t_values, Bool.or_eq_true, beq_iff_eq, List.mem_cons,
    List.mem_singleton, List.not_mem_nil, or_false, OS_F_QUE_00, OS_F_QUE_01, OS_F_QUE_10,
    OS_F_QUE_11]
  omega

theorem IS_OS_POL_iff (v : Nat) : IS_OS_POL v = true ↔ v ∈ Os_Pol_t_values := by
  simp only [IS_OS_POL, Os_Pol_t_values, Bool.or_eq_true, beq_iff_eq, List.mem_cons,
    List.mem_singleton, List.not_mem_nil, or_false, OS_POL_L, OS_POL_H]
  omega

theorem IS_OS_OP_MODE_iff (v : Nat) : IS_OS_OP_MODE v = true ↔ v ∈ Os_Op_Mode_t_values := by
  simp only [IS_OS_OP_MODE, Os_Op_Mode_t_values, Bool.or_eq_true, beq_iff_eq, List.mem_cons,
    List.mem_singleton, List.not_mem_nil, or_false, OS_OP_MODE_COMP, OS_OP_MODE_INT]
  omega

theorem IS_OP_MODE_iff (v : Nat) : IS_OP_MODE v = true ↔ v ∈ Op_Mode_t_values := by
  simp only [IS_OP_MODE, Op_Mode_t_values, Bool.or_eq_true, beq_iff_eq, List.mem_cons,
    List.mem_singleton, List.not_mem_nil, or_false, OP_MODE_NORMAL, OP_MODE_SHUTDOWN]
  omega

/-- A record passes the five checks exactly when each of the five fields holds
an enumerator of its type. -/
theorem passesChecks_iff (d : PCT2075_t) :
    passesChecks d = true ↔
      d.Id ∈ PCT2075_Id_t_values ∧ d.OP_MODE ∈ Op_Mode_t_values ∧
      d.OS_OP_MODE ∈ Os_Op_Mode_t_values ∧ d.OS_POL ∈ Os_Pol_t_values ∧
      d.OS_F_QUE ∈ Os_F_Que_t_values := by
  simp only [passesChecks, Bool.and_eq_true, IS_PCT2075_ID_iff, IS_OP_MODE_iff,
    IS_OS_OP_MODE_iff, IS_OS_POL_iff, IS_OS_F_QUE_iff, and_assoc]

/-- The trace written by `PCT2075_Config` on a record that passes the checks,
in the terms of the source. -/
theorem PCT2075_Config_of_passes (d : PCT2075_t) (bus : List WriteCall)
    (h : passesChecks d = true) :
    PCT2075_Config d bus =
      (Outcome.returned,
        bus ++ [{ id := d.Id, reg := CONF_Reg, data := Set_Conf_Reg_Value d },
          { id := d.Id, reg := HYST_Reg, data := (Set_Hyst_Reg_Value d >>> 8) % 256 },
          { id := d.Id, reg := HYST_Reg, data := Set_Hyst_Reg_Value d % 256 },
          { id := d.Id, reg := OS_Reg, data := (Set_OS_Reg_Value d >>> 8) % 256 },
          { id := d.Id, reg := OS_Reg, data := Set_OS_Reg_Value d % 256 },
          { id := d.Id, reg := IDLE_Reg, data := Set_Idle_Value d }]) := by
  simp only [passesChecks, Bool.and_eq_true] at h
  obtain ⟨⟨⟨⟨h1, h2⟩, h3⟩, h4⟩, h5⟩ := h
  simp [PCT2075_Config, PCT2075_Write, h1, h2, h3, h4, h5]

/-- When a record does not pass the checks, `PCT2075_Config` stops at an
assertion and leaves the trace as it was. -/
theorem PCT2075_Config_of_fails (d : PCT2075_t) (bus : List WriteCall)
    (h : passesChecks d = false) :
    (∃ c, (PCT2075_Config d bus).1 = Outcome.assertFailed c) ∧
      (PCT2075_Config d bus).2 = bus := by
  unfold PCT2075_Config
  by_cases h1 : IS_PCT2075_ID d.Id = true
  · by_cases h2 : IS_OP_MODE d.OP_MODE = true
    · by_cases h3 : IS_OS_OP_MODE d.OS_OP_MODE = true
      · by_cases h4 : IS_OS_POL d.OS_POL = true
        · by_cases h5 : IS_OS_F_QUE d.OS_F_QUE = true
          · simp [passesChecks, h1, h2, h3, h4, h5] at h
          · simp [h1, h2, h3, h4, h5]
        · simp [h1, h2, h3, h4]
      · simp [h1, h2, h3]
    · simp [h1, h2]
  · simp [h1]

/-- On natural numbers the float product of `temporary`, with its fraction
discarded, is a division by 8. -/
theorem truncate_temporary (a b : Nat) :
    truncate (temporary a b) = ((((a <<< 8) + b) >>> 5) / 8 : Nat) := by
  have h : temporary a b = ((((a <<< 8) + b) >>> 5 : Nat) : ℚ) / ((8 : Nat) : ℚ) := by
    unfold temporary; norm_num; ring
  have h0 : (0 : ℚ) ≤ temporary a b := by
    rw [h]; positivity
  unfold truncate
  rw [if_pos h0, h, Rat.floor_natCast_div_natCast]
  norm_cast

/-- A bitwise OR is zero exactly when both operands are zero. -/
theorem lor_eq_zero_iff (a b : Nat) : a ||| b = 0 ↔ a = 0 ∧ b = 0 := by
  constructor
  · intro h
    have key : ∀ i, a.testBit i = false ∧ b.testBit i = false := by
      intro i
      have hi := congrArg (fun x => Nat.testBit x i) h
      simpa [Nat.testBit_or] using hi
    exact ⟨Nat.eq_of_testBit_eq (fun i => by simpa using (key i).1),
      Nat.eq_of_testBit_eq (fun i => by simpa using (key i).2)⟩
  · rintro ⟨rfl, rfl⟩
    rfl

/-- A left shift is zero exactly when the shifted number is zero. -/
theorem shiftLeft_eq_zero_iff (a k : Nat) : a <<< k = 0 ↔ a = 0 := by
  rw [Nat.shiftLeft_eq]
  constructor
  · intro h
    rcases Nat.mul_eq_zero.mp h with h | h
    · exact h
    · exact absurd h (by positivity)
  · rintro rfl; simp

/-- The value of `Set_Conf_Reg_Value` in closed form: 0 when the four terms of
the OR are zero, 1 otherwise. -/
theorem Set_Conf_Reg_Value_eq (d : PCT2075_t) :
    Set_Conf_Reg_Value d =
      if d.OP_MODE = 0 ∧ wrap32 (d.OS_OP_MODE <<< 1) = 0 ∧ wrap32 (d.OS_POL <<< 2) = 0 ∧
        wrap32 (d.OS_F_QUE <<< 3) = 0 then 0 else 1 := by
  unfold Set_Conf_Reg_Value logicalAnd
  by_cases h : d.OP_MODE = 0 ∧ wrap32 (d.OS_OP_MODE <<< 1) = 0 ∧ wrap32 (d.OS_POL <<< 2) = 0 ∧
      wrap32 (d.OS_F_QUE <<< 3) = 0
  · obtain ⟨h1, h2, h3, h4⟩ := h
    simp [h1, h2, h3, h4]
  · rw [if_neg h]
    have hne : d.OP_MODE ||| wrap32 (d.OS_OP_MODE <<< 1) ||| wrap32 (d.OS_POL <<< 2)
        ||| wrap32 (d.OS_F_QUE <<< 3) ≠ 0 := by
      intro h0
      apply h
      simp only [lor_eq_zero_iff] at h0
      tauto
    rw [if_pos ⟨hne, by decide⟩]

/-- The byte returned by `Set_Conf_Reg_Value` is 0 or 1. -/
theorem Set_Conf_Reg_Value_zero_or_one (d : PCT2075_t) :
    Set_Conf_Reg_Value d = 0 ∨ Set_Conf_Reg_Value d = 1 := by
  rw [Set_Conf_Reg_Value_eq]; split <;> simp

/-- When no shift of `Set_Conf_Reg_Value` overflows 32 bits, the result is 0
exactly when the four fields are zero. -/
theorem Set_Conf_Reg_Value_eq_of_lt (d : PCT2075_t) (h1 : d.OS_OP_MODE < 2 ^ 31)
    (h2 : d.OS_POL < 2 ^ 30) (h3 : d.OS_F_QUE < 2 ^ 29) :
    Set_Conf_Reg_Value d =
      if d.OP_MODE = 0 ∧ d.OS_OP_MODE = 0 ∧ d.OS_POL = 0 ∧ d.OS_F_QUE = 0 then 0 else 1 := by
  have e1 : wrap32 (d.OS_OP_MODE <<< 1) = 0 ↔ d.OS_OP_MODE = 0 := by
    unfold wrap32; rw [Nat.shiftLeft_eq]; omega
  have e2 : wrap32 (d.OS_POL <<< 2) = 0 ↔ d.OS_POL = 0 := by
    unfold wrap32; rw [Nat.shiftLeft_eq]; omega
  have e3 : wrap32 (d.OS_F_QUE <<< 3) = 0 ↔ d.OS_F_QUE = 0 := by
    unfold wrap32; rw [Nat.shiftLeft_eq]; omega
  rw [Set_Conf_Reg_Value_eq]
  simp only [e1, e2, e3]

/-- The mode fields of a record that passes the checks are far below the
bounds at which a shift of `Set_Conf_Reg_Value` overflows. -/
theorem mode_fields_lt_of_passes (d : PCT2075_t) (h : passesChecks d = true) :
    d.OS_OP_MODE < 2 ^ 31 ∧ d.OS_POL < 2 ^ 30 ∧ d.OS_F_QUE < 2 ^ 29 := by
  rw [passesChecks_iff] at h
  obtain ⟨_, _, h3, h4, h5⟩ := h
  simp only [Os_Op_Mode_t_values, Os_Pol_t_values, Os_F_Que_t_values, List.mem_cons,
    List.mem_singleton, List.not_mem_nil, or_false, OS_OP_MODE_COMP, OS_OP_MODE_INT, OS_POL_L,
    OS_POL_H, OS_F_QUE_00, OS_F_QUE_01, OS_F_QUE_10, OS_F_QUE_11] at h3 h4 h5
  refine ⟨?_, ?_, ?_⟩ <;> omega

/-- The decode of `PCT2075_Read` on natural numbers: the raw reading divided
by 8 when that is an `int8_t` value, undefined otherwise. -/
theorem PCT2075_Read_decode_eq (a b : Nat) :
    PCT2075_Read_decode a b =
      if (((a <<< 8) + b) >>> 5) / 8 ≤ 127 then some (((((a <<< 8) + b) >>> 5) / 8 : Nat) : Int)
      else none := by
  unfold PCT2075_Read_decode toInt8
  rw [truncate_temporary]
  by_cases h : (((a <<< 8) + b) >>> 5) / 8 ≤ 127
  · rw [if_pos h, if_pos]
    constructor <;> omega
  · rw [if_neg h, if_neg]
    omega

/-- The signed temperature of the raw reading 0xE720 is -24 (from -24.875). -/
theorem signedTemperature_E720 : signedTemperature 0xE7 0x20 = -24 := by
  have e : ((0xE7 <<< 8) ||| 0x20) >>> 5 = 1849 := by decide
  unfold signedTemperature
  simp only [e]
  norm_num [truncate]
  rw [Int.ceil_eq_iff]
  norm_num

/-- The signed temperature of the raw reading 0xE700 is -25. -/
theorem signedTemperature_E700 : signedTemperature 0xE7 0x00 = -25 := by
  have e : ((0xE7 <<< 8) ||| 0x00) >>> 5 = 1848 := by decide
  unfold signedTemperature
  simp only [e]
  norm_num [truncate]
  rw [Int.ceil_eq_iff]
  norm_num

/-- The value of `Set_Idle_Value` in closed form. -/
theorem Set_Idle_Value_eq (d : PCT2075_t) :
    Set_Idle_Value d = if d.Idle = 0 then 0 else 1 := by
  unfold Set_Idle_Value logicalAnd
  by_cases h : d.Idle = 0
  · simp [h]
  · simp [h]

/-- The high byte written by `PCT2075_Config` for a 16-bit value. -/
theorem shiftRight_8_mod_256 (v : Nat) (h : v < 65536) : (v >>> 8) % 256 = v / 256 := by
  rw [Nat.shiftRight_eq_div_pow]; omega

theorem Set_Hyst_Reg_Value_lt (d : PCT2075_t) : Set_Hyst_Reg_Value d < 65536 :=
  Nat.mod_lt _ (by decide)

theorem Set_OS_Reg_Value_lt (d : PCT2075_t) : Set_OS_Reg_Value d < 65536 :=
  Nat.mod_lt _ (by decide)

/-- The way `PCT2075_Config` ends, as a function of the five checked fields. -/
theorem PCT2075_Config_outcome (d : PCT2075_t) (bus : List WriteCall) :
    (PCT2075_Config d bus).1 =
      if IS_PCT2075_ID d.Id = false then Outcome.assertFailed Check.Id
      else if IS_OP_MODE d.OP_MODE = false then Outcome.assertFailed Check.OP_MODE
      else if IS_OS_OP_MODE d.OS_OP_MODE = false then Outcome.assertFailed Check.OS_OP_MODE
      else if IS_OS_POL d.OS_POL = false then Outcome.assertFailed Check.OS_POL
      else if IS_OS_F_QUE d.OS_F_QUE = false then Outcome.assertFailed Check.OS_F_QUE
      else Outcome.returned := by
  unfold PCT2075_Config
  cases IS_PCT2075_ID d.Id <;> cases IS_OP_MODE d.OP_MODE <;>
    cases IS_OS_OP_MODE d.OS_OP_MODE <;> cases IS_OS_POL d.OS_POL <;>
    cases IS_OS_F_QUE d.OS_F_QUE <;> rfl

/-- The earliest invalid field, in terms of the five macros. -/
theorem firstInvalidField_eq (d : PCT2075_t) :
    firstInvalidField d =
      if IS_PCT2075_ID d.Id = false then some Check.Id
      else if IS_OP_MODE d.OP_MODE = false then some Check.OP_MODE
      else if IS_OS_OP_MODE d.OS_OP_MODE = false then some Check.OS_OP_MODE
      else if IS_OS_POL d.OS_POL = false then some Check.OS_POL
      else if IS_OS_F_QUE d.OS_F_QUE = false then some Check.OS_F_QUE
      else none := by
  have e1 : PCT2075_Id_t_values.contains d.Id = IS_PCT2075_ID d.Id := by
    rw [Bool.eq_iff_iff, List.contains, List.elem_iff, IS_PCT2075_ID_iff]
  have e2 : Op_Mode_t_values.contains d.OP_MODE = IS_OP_MODE d.OP_MODE := by
    rw [Bool.eq_iff_iff, List.contains, List.elem_iff, IS_OP_MODE_iff]
  have e3 : Os_Op_Mode_t_values.contains d.OS_OP_MODE = IS_OS_OP_MODE d.OS_OP_MODE := by
    rw [Bool.eq_iff_iff, List.contains, List.elem_iff, IS_OS_OP_MODE_iff]
  have e4 : Os_Pol_t_values.contains d.OS_POL = IS_OS_POL d.OS_POL := by
    rw [Bool.eq_iff_iff, List.contains, List.elem_iff, IS_OS_POL_iff]
  have e5 : Os_F_Que_t_values.contains d.OS_F_QUE = IS_OS_F_QUE d.OS_F_QUE := by
    rw [Bool.eq_iff_iff, List.contains, List.elem_iff, IS_OS_F_QUE_iff]
  simp only [firstInvalidField, checkOrder, List.find?, enumerationOf, fieldOf, e1, e2, e3, e4, e5]
  cases IS_PCT2075_ID d.Id <;> cases IS_OP_MODE d.OP_MODE <;>
    cases IS_OS_OP_MODE d.OS_OP_MODE <;> cases IS_OS_POL d.OS_POL <;>
    cases IS_OS_F_QUE d.OS_F_QUE <;> rfl

/-! ## The claims -/

/-- C1: the address check `IS_PCT2075_ID` of `PCT2075_Config` accepts a value
exactly when it is one of the thirty named codes of `PCT2075_Id_t`; the three
6-pin codes equal the first three 8-pin codes, so the thirty names denote 27
distinct values, and exactly 27 of the 256 byte values are accepted. -/
theorem C1_address_check_accepts_exactly_named_codes (v : Nat) :
    (IS_PCT2075_ID v = true ↔ v ∈ PCT2075_Id_t_values) ∧
    (IS_PCT2075_ID v = false ↔ v ∉ PCT2075_Id_t_values) ∧
    PCT2075_Id_t_values.length = 30 ∧
    PCT2075_Id_t_values.dedup.length = 27 ∧
    PACK_6_PIN_ADDR_1 = PACK_8_PIN_ADDR_1 ∧ PACK_6_PIN_ADDR_2 = PACK_8_PIN_ADDR_2 ∧
    PACK_6_PIN_ADDR_3 = PACK_8_PIN_ADDR_3 ∧
    ((List.range 256).filter IS_PCT2075_ID).length = 27 := by
  refine ⟨IS_PCT2075_ID_iff v, ?_, by decide, by decide, rfl, rfl, rfl, by decide⟩
  rw [← IS_PCT2075_ID_iff, Bool.not_eq_true]

/-- C2: when at least one of `Id`, `OP_MODE`, `OS_OP_MODE`, `OS_POL`,
`OS_F_QUE` holds a value outside its enumeration, `PCT2075_Config` ends at a
failed assertion and makes no call of `PCT2075_Write`: the trace of bus writes
is the one it started from, which for a fresh bus is empty. -/
theorem C2_invalid_field_fails_without_write (d : PCT2075_t) (bus : List WriteCall)
    (h : d.Id ∉ PCT2075_Id_t_values ∨ d.OP_MODE ∉ Op_Mode_t_values ∨
      d.OS_OP_MODE ∉ Os_Op_Mode_t_values ∨ d.OS_POL ∉ Os_Pol_t_values ∨
      d.OS_F_QUE ∉ Os_F_Que_t_values) :
    (∃ c, (PCT2075_Config d bus).1 = Outcome.assertFailed c) ∧
      (PCT2075_Config d bus).2 = bus ∧ (PCT2075_Config d []).2 = [] := by
  have hf : passesChecks d = false := by
    rw [← Bool.not_eq_true, passesChecks_iff]
    tauto
  exact ⟨(PCT2075_Config_of_fails d bus hf).1, (PCT2075_Config_of_fails d bus hf).2,
    (PCT2075_Config_of_fails d [] hf).2⟩

/-- C2 at the record that is valid except for `OS_F_QUE = 5`: the other four
fields hold enumerators, the call fails and the trace stays empty. -/
theorem C2_fault_queue_five_fails_without_write :
    (IS_PCT2075_ID badFaultQueueDevice.Id = true ∧ IS_OP_MODE badFaultQueueDevice.OP_MODE = true ∧
      IS_OS_OP_MODE badFaultQueueDevice.OS_OP_MODE = true ∧
      IS_OS_POL badFaultQueueDevice.OS_POL = true ∧ badFaultQueueDevice.OS_F_QUE = 5) ∧
    ((∃ c, (PCT2075_Config badFaultQueueDevice []).1 = Outcome.assertFailed c) ∧
      (PCT2075_Config badFaultQueueDevice []).2 = [] ∧
      (PCT2075_Config badFaultQueueDevice []).2 = []) :=
  ⟨by decide, C2_invalid_field_fails_without_write badFaultQueueDevice []
    (Or.inr (Or.inr (Or.inr (Or.inr (by decide)))))⟩

/-- C3: for a record that passes the five checks `PCT2075_Config` returns
after exactly six calls of `PCT2075_Write`, all with device address `Id`, in
the order configuration (0x01), hysteresis high byte, hysteresis low byte
(0x02), overtemperature high byte, overtemperature low byte (0x03), idle
(0x04). -/
theorem C3_config_issues_six_writes_in_order (d : PCT2075_t) (bus : List WriteCall)
    (h : passesChecks d = true) :
    PCT2075_Config d bus =
      (Outcome.returned,
        bus ++ [{ id := d.Id, reg := 0x01, data := Set_Conf_Reg_Value d },
          { id := d.Id, reg := 0x02, data := Set_Hyst_Reg_Value d / 256 },
          { id := d.Id, reg := 0x02, data := Set_Hyst_Reg_Value d % 256 },
          { id := d.Id, reg := 0x03, data := Set_OS_Reg_Value d / 256 },
          { id := d.Id, reg := 0x03, data := Set_OS_Reg_Value d % 256 },
          { id := d.Id, reg := 0x04, data := Set_Idle_Value d }]) ∧
    (PCT2075_Config d []).2.length = 6 := by
  have hh : (Set_Hyst_Reg_Value d >>> 8) % 256 = Set_Hyst_Reg_Value d / 256 := by
    have : Set_Hyst_Reg_Value d < 65536 := Nat.mod_lt _ (by decide)
    rw [Nat.shiftRight_eq_div_pow]; omega
  have ho : (Set_OS_Reg_Value d >>> 8) % 256 = Set_OS_Reg_Value d / 256 := by
    have : Set_OS_Reg_Value d < 65536 := Nat.mod_lt _ (by decide)
    rw [Nat.shiftRight_eq_div_pow]; omega
  rw [PCT2075_Config_of_passes d bus h, PCT2075_Config_of_passes d [] h, hh, ho]
  exact ⟨rfl, rfl⟩

/-- C3 at `interruptModeDevice`, from an empty trace. -/
theorem C3_six_writes_for_sample_device :
    passesChecks interruptModeDevice = true ∧
    PCT2075_Config interruptModeDevice [] =
      (Outcome.returned,
        [{ id := 0x90, reg := 1, data := 1 }, { id := 0x90, reg := 2, data := 2 },
          { id := 0x90, reg := 2, data := 0 }, { id := 0x90, reg := 3, data := 2 },
          { id := 0x90, reg := 3, data := 128 }, { id := 0x90, reg := 4, data := 1 }]) :=
  ⟨by decide, (C3_config_issues_six_writes_in_order interruptModeDevice [] (by decide)).1⟩

/-- C4 (evaluation of the code): on `interruptModeDevice`, which passes the
five checks and has `OP_MODE = 0`, `OS_OP_MODE = 1`, `Set_Conf_Reg_Value`
returns 1: bit 0 is set although `OP_MODE` is 0, and bit 1 is clear although
`OS_OP_MODE` is 1. -/
theorem C4_conf_value_of_interrupt_mode_device :
    passesChecks interruptModeDevice = true ∧
    interruptModeDevice.OP_MODE = 0 ∧ interruptModeDevice.OS_OP_MODE = 1 ∧
    Set_Conf_Reg_Value interruptModeDevice = 1 ∧
    (Set_Conf_Reg_Value interruptModeDevice).testBit 0 = true ∧
    (Set_Conf_Reg_Value interruptModeDevice).testBit 1 = false := by
  decide

/-- C5: for every device record the byte returned by `Set_Conf_Reg_Value` is
at most 0x1F, its bits 7:5 are zero, and two records that agree on `OP_MODE`,
`OS_OP_MODE`, `OS_POL` and `OS_F_QUE` give the same byte. -/
theorem C5_conf_value_high_bits_zero_and_depends_on_four_fields (d₁ d₂ : PCT2075_t)
    (h1 : d₁.OP_MODE = d₂.OP_MODE) (h2 : d₁.OS_OP_MODE = d₂.OS_OP_MODE)
    (h3 : d₁.OS_POL = d₂.OS_POL) (h4 : d₁.OS_F_QUE = d₂.OS_F_QUE) :
    Set_Conf_Reg_Value d₁ = Set_Conf_Reg_Value d₂ ∧
    Set_Conf_Reg_Value d₁ ≤ 0x1F ∧ Set_Conf_Reg_Value d₁ >>> 5 = 0 ∧
    Set_Conf_Reg_Value d₁ &&& 0b11100000 = 0 := by
  refine ⟨?_, ?_, ?_, ?_⟩
  · unfold Set_Conf_Reg_Value
    rw [h1, h2, h3, h4]
  all_goals
    rw [Set_Conf_Reg_Value_eq]
    split <;> decide

/-- C5 at two records that differ in `Id`, `Hyst`, `OS` and `Idle` only. -/
theorem C5_conf_value_of_two_sample_records :
    Set_Conf_Reg_Value interruptModeDevice =
      Set_Conf_Reg_Value
        { interruptModeDevice with Id := PACK_8_PIN_ADDR_27, Hyst := 9, OS := 300, Idle := 0 } ∧
    Set_Conf_Reg_Value interruptModeDevice ≤ 0x1F ∧
    Set_Conf_Reg_Value interruptModeDevice >>> 5 = 0 ∧
    Set_Conf_Reg_Value interruptModeDevice &&& 0b11100000 = 0 :=
  C5_conf_value_high_bits_zero_and_depends_on_four_fields interruptModeDevice
    { interruptModeDevice with Id := PACK_8_PIN_ADDR_27, Hyst := 9, OS := 300, Idle := 0 }
    rfl rfl rfl rfl

/-- C6: `Set_Hyst_Reg_Value` returns `(Hyst * 128) mod 65536` and
`Set_OS_Reg_Value` returns `(OS * 128) mod 65536`, for every field value (in
particular every 16-bit one); the low 7 bits of both results are zero; for
the field value 4 the result is 512 = 0x0200, high byte 0x02, low byte 0x00. -/
theorem C6_hyst_and_os_values_are_field_times_128 (d : PCT2075_t) :
    Set_Hyst_Reg_Value d = (d.Hyst * 128) % 65536 ∧
    Set_OS_Reg_Value d = (d.OS * 128) % 65536 ∧
    Set_Hyst_Reg_Value d &&& 0b1111111 = 0 ∧
    Set_OS_Reg_Value d &&& 0b1111111 = 0 ∧
    (Set_Hyst_Reg_Value { d with Hyst := 4 } = 0x0200 ∧
      Set_Hyst_Reg_Value { d with Hyst := 4 } / 256 = 0x02 ∧
      Set_Hyst_Reg_Value { d with Hyst := 4 } % 256 = 0x00) ∧
    (Set_OS_Reg_Value { d with OS := 4 } = 0x0200 ∧
      Set_OS_Reg_Value { d with OS := 4 } / 256 = 0x02 ∧
      Set_OS_Reg_Value { d with OS := 4 } % 256 = 0x00) := by
  have low7 : ∀ x : Nat, ((x <<< 7) % 65536) &&& 0b1111111 = 0 := by
    intro x
    have e : (0b1111111 : Nat) = 2 ^ 7 - 1 := by decide
    rw [e, Nat.and_pow_two_sub_one_eq_mod, Nat.shiftLeft_eq]
    omega
  refine ⟨?_, ?_, low7 _, low7 _, by simp [Set_Hyst_Reg_Value], by simp [Set_OS_Reg_Value]⟩
  · unfold Set_Hyst_Reg_Value; rw [Nat.shiftLeft_eq]
  · unfold Set_OS_Reg_Value; rw [Nat.shiftLeft_eq]

/-- C7 (evaluation of the code): for `Idle = 0xFF` the source returns 1 from
`Set_Idle_Value`, while `Idle` masked to its low 5 bits is 0x1F. -/
theorem C7_idle_value_of_0xFF :
    interruptModeDevice.Idle = 0xFF ∧ Set_Idle_Value interruptModeDevice = 1 ∧
    interruptModeDevice.Idle &&& 0x1F = 0x1F := by
  decide

/-- C8: for two bytes with `msb ≤ 0x7F` the decode of `PCT2075_Read` returns
the integer part of `(((msb << 8) | lsb) >> 5) * 0.125`, a value in 0..127;
for (0x50, 0x00) it returns 80 and for (0x00, 0x00) it returns 0. -/
theorem C8_decode_of_nonnegative_reading (msb lsb : Nat) (hm : msb ≤ 0x7F) (hl : lsb ≤ 0xFF) :
    PCT2075_Read_decode msb lsb = some (integerPartOfReading msb lsb) ∧
    0 ≤ integerPartOfReading msb lsb ∧ integerPartOfReading msb lsb ≤ 127 ∧
    PCT2075_Read_decode 0x50 0x00 = some 80 ∧ PCT2075_Read_decode 0x00 0x00 = some 0 := by
  have hor : (msb <<< 8) ||| lsb = (msb <<< 8) + lsb := by
    rw [Nat.shiftLeft_eq, Nat.mul_comm]
    exact (Nat.mul_add_lt_is_or (by omega) msb).symm
  have hspec : integerPartOfReading msb lsb = ((((msb <<< 8) + lsb) >>> 5) / 8 : Nat) := by
    have h := truncate_temporary msb lsb
    have h0 : (0 : ℚ) ≤ temporary msb lsb := by unfold temporary; positivity
    unfold truncate at h
    rw [if_pos h0] at h
    unfold integerPartOfReading
    rw [hor]
    exact h
  have hb : (((msb <<< 8) + lsb) >>> 5) / 8 ≤ 127 := by
    rw [Nat.shiftLeft_eq, Nat.shiftRight_eq_div_pow]
    omega
  refine ⟨?_, ?_, ?_, ?_, ?_⟩
  · rw [PCT2075_Read_decode_eq, if_pos hb, hspec]
  · rw [hspec]; omega
  · rw [hspec]; omega
  · rw [PCT2075_Read_decode_eq]; decide
  · rw [PCT2075_Read_decode_eq]; decide

/-- C8 at the reading (0x19, 0xE0), which is 25.875 degrees: the result is 25. -/
theorem C8_decode_of_reading_0x19E0 :
    ((0x19 : Nat) ≤ 0x7F ∧ (0xE0 : Nat) ≤ 0xFF ∧ PCT2075_Read_decode 0x19 0xE0 = some 25) ∧
    (PCT2075_Read_decode 0x19 0xE0 = some (integerPartOfReading 0x19 0xE0) ∧
      0 ≤ integerPartOfReading 0x19 0xE0 ∧ integerPartOfReading 0x19 0xE0 ≤ 127 ∧
      PCT2075_Read_decode 0x50 0x00 = some 80 ∧ PCT2075_Read_decode 0x00 0x00 = some 0) :=
  ⟨⟨by decide, by decide, by rw [PCT2075_Read_decode_eq]; decide⟩,
    C8_decode_of_nonnegative_reading 0x19 0xE0 (by decide) (by decide)⟩

/-- C9 (evaluation of the code): for the reading (0xE7, 0x20), which is
-24.875 degrees, `temporary` is 231.125; its integer part 231 is not an
`int8_t` value, so the cast of the return is undefined, while the signed
temperature truncated toward zero is -24.  The same holds for every reading
with `msb ≥ 0x80`, among them (0xE7, 0x00), whose signed temperature is -25. -/
theorem C9_decode_of_negative_reading :
    temporary 0xE7 0x20 = 231.125 ∧ truncate (temporary 0xE7 0x20) = 231 ∧
    PCT2075_Read_decode 0xE7 0x20 = none ∧ signedTemperature 0xE7 0x20 = -24 ∧
    PCT2075_Read_decode 0xE7 0x00 = none ∧ signedTemperature 0xE7 0x00 = -25 ∧
    (∀ msb lsb : Nat, 0x80 ≤ msb → PCT2075_Read_decode msb lsb = none) := by
  refine ⟨?_, ?_, ?_, signedTemperature_E720, ?_, signedTemperature_E700, ?_⟩
  · have e : ((0xE7 <<< 8) + 0x20) >>> 5 = 1849 := by decide
    unfold temporary
    rw [e]; norm_num
  · rw [truncate_temporary]; decide
  · rw [PCT2075_Read_decode_eq]; decide
  · rw [PCT2075_Read_decode_eq]; decide
  · intro msb lsb h
    rw [PCT2075_Read_decode_eq, if_neg]
    rw [Nat.shiftLeft_eq, Nat.shiftRight_eq_div_pow]
    omega

/-- C10 (the claim as stated fails): in `wrappingFaultQueueDevice` the
fault-queue object holds `0x20000000`, a value of its 32-bit type, and the
other three mode fields are zero; `OS_F_QUE << 3` wraps to 0, so
`Set_Conf_Reg_Value` returns 0 although `OS_F_QUE` is not zero. -/
theorem C10_conf_value_of_wrapping_fault_queue_is_zero :
    wrappingFaultQueueDevice.OS_F_QUE = 0x20000000 ∧
    wrappingFaultQueueDevice.OS_F_QUE < 2 ^ 32 ∧
    wrappingFaultQueueDevice.OS_F_QUE ≠ 0 ∧
    Set_Conf_Reg_Value wrappingFaultQueueDevice = 0 ∧
    ¬ (Set_Conf_Reg_Value wrappingFaultQueueDevice =
      (if wrappingFaultQueueDevice.OP_MODE = 0 ∧ wrappingFaultQueueDevice.OS_OP_MODE = 0 ∧
          wrappingFaultQueueDevice.OS_POL = 0 ∧ wrappingFaultQueueDevice.OS_F_QUE = 0
        then 0 else 1)) := by
  decide

/-- C10, amended: for a record in which no shift overflows 32 bits
(`OS_OP_MODE < 2 ^ 31`, `OS_POL < 2 ^ 30`, `OS_F_QUE < 2 ^ 29`)
`Set_Conf_Reg_Value` returns 0 when `OP_MODE`, `OS_OP_MODE`, `OS_POL` and
`OS_F_QUE` are all zero and 1 otherwise.  For every record whatsoever the
result is 0 or 1 and every write of `PCT2075_Config` to the configuration
register carries 0x00 or 0x01; a record that passes the checks is within the
bounds, and its first write is that byte to `CONF_Reg`. -/
theorem C10_conf_value_is_truth_value_when_shifts_fit (d : PCT2075_t)
    (h1 : d.OS_OP_MODE < 2 ^ 31) (h2 : d.OS_POL < 2 ^ 30) (h3 : d.OS_F_QUE < 2 ^ 29) :
    Set_Conf_Reg_Value d =
      (if d.OP_MODE = 0 ∧ d.OS_OP_MODE = 0 ∧ d.OS_POL = 0 ∧ d.OS_F_QUE = 0 then 0 else 1) ∧
    (∀ e : PCT2075_t,
      (Set_Conf_Reg_Value e = 0x00 ∨ Set_Conf_Reg_Value e = 0x01) ∧
      (∀ w ∈ (PCT2075_Config e []).2, w.reg = CONF_Reg → w.data = 0x00 ∨ w.data = 0x01) ∧
      (passesChecks e = true →
        (e.OS_OP_MODE < 2 ^ 31 ∧ e.OS_POL < 2 ^ 30 ∧ e.OS_F_QUE < 2 ^ 29) ∧
        Set_Conf_Reg_Value e =
          (if e.OP_MODE = 0 ∧ e.OS_OP_MODE = 0 ∧ e.OS_POL = 0 ∧ e.OS_F_QUE = 0
            then 0 else 1) ∧
        (PCT2075_Config e []).2.head? =
          some { id := e.Id, reg := CONF_Reg, data := Set_Conf_Reg_Value e })) := by
  refine ⟨Set_Conf_Reg_Value_eq_of_lt d h1 h2 h3, ?_⟩
  intro e
  have hv := Set_Conf_Reg_Value_zero_or_one e
  refine ⟨hv, ?_, ?_⟩
  · intro w hw hreg
    cases hp : passesChecks e
    · rw [(PCT2075_Config_of_fails e [] hp).2] at hw
      simp at hw
    · rw [PCT2075_Config_of_passes e [] hp] at hw
      simp only [List.nil_append, List.mem_cons, List.mem_singleton, List.not_mem_nil,
        or_false] at hw
      rcases hw with rfl | rfl | rfl | rfl | rfl | rfl
      · exact hv
      all_goals simp [HYST_Reg, OS_Reg, IDLE_Reg, CONF_Reg] at hreg
  · intro hp
    have hb := mode_fields_lt_of_passes e hp
    refine ⟨hb, Set_Conf_Reg_Value_eq_of_lt e hb.1 hb.2.1 hb.2.2, ?_⟩
    rw [PCT2075_Config_of_passes e [] hp]
    rfl

/-- C10, amended, at a record with every mode field set (`OS_F_QUE = 0x11`):
the fields are within the bounds, the result is 1, and the byte written to
the configuration register is 0x01. -/
theorem C10_conf_write_of_all_fields_set :
    ((OS_OP_MODE_INT < 2 ^ 31 ∧ OS_POL_H < 2 ^ 30 ∧ OS_F_QUE_11 < 2 ^ 29) ∧
      passesChecks { interruptModeDevice with
        OP_MODE := OP_MODE_SHUTDOWN, OS_POL := OS_POL_H, OS_F_QUE := OS_F_QUE_11 } = true) ∧
    Set_Conf_Reg_Value { interruptModeDevice with
      OP_MODE := OP_MODE_SHUTDOWN, OS_POL := OS_POL_H, OS_F_QUE := OS_F_QUE_11 } = 1 ∧
    (PCT2075_Config { interruptModeDevice with
      OP_MODE := OP_MODE_SHUTDOWN, OS_POL := OS_POL_H, OS_F_QUE := OS_F_QUE_11 } []).2.head? =
      some { id := 0x90, reg := 0x01, data := 0x01 } :=
  ⟨by decide,
    (C10_conf_value_is_truth_value_when_shifts_fit { interruptModeDevice with
      OP_MODE := OP_MODE_SHUTDOWN, OS_POL := OS_POL_H, OS_F_QUE := OS_F_QUE_11 }
        (by decide) (by decide) (by decide)).1,
    (((C10_conf_value_is_truth_value_when_shifts_fit { interruptModeDevice with
      OP_MODE := OP_MODE_SHUTDOWN, OS_POL := OS_POL_H, OS_F_QUE := OS_F_QUE_11 }
        (by decide) (by decide) (by decide)).2 { interruptModeDevice with
      OP_MODE := OP_MODE_SHUTDOWN, OS_POL := OS_POL_H, OS_F_QUE := OS_F_QUE_11 }).2.2
        (by decide)).2.2⟩

/-- C11: `Set_Idle_Value` returns 0 when `Idle = 0` and 1 when `Idle` is not
zero; hence every write of `PCT2075_Config` to the idle register carries 0x00
or 0x01, and for a record that passes the checks that byte is the one data
byte written to `IDLE_Reg`. -/
theorem C11_idle_value_is_truth_value (d : PCT2075_t) :
    Set_Idle_Value d = (if d.Idle = 0 then 0 else 1) ∧
    (∀ w ∈ (PCT2075_Config d []).2, w.reg = IDLE_Reg → w.data = 0x00 ∨ w.data = 0x01) ∧
    (passesChecks d = true →
      dataWrittenTo IDLE_Reg (PCT2075_Config d []).2 = [Set_Idle_Value d]) := by
  have hv : Set_Idle_Value d = 0 ∨ Set_Idle_Value d = 1 := by
    rw [Set_Idle_Value_eq]; split <;> simp
  refine ⟨Set_Idle_Value_eq d, ?_, ?_⟩
  · intro w hw hreg
    cases hp : passesChecks d
    · rw [(PCT2075_Config_of_fails d [] hp).2] at hw
      simp at hw
    · rw [PCT2075_Config_of_passes d [] hp] at hw
      simp only [List.nil_append, List.mem_cons, List.mem_singleton, List.not_mem_nil,
        or_false] at hw
      rcases hw with rfl | rfl | rfl | rfl | rfl | rfl
      all_goals first | exact hv | simp [HYST_Reg, OS_Reg, IDLE_Reg, CONF_Reg] at hreg
  · intro hp
    rw [PCT2075_Config_of_passes d [] hp]
    simp [dataWrittenTo, List.filter, HYST_Reg, OS_Reg, IDLE_Reg, CONF_Reg]

/-- C11 at `interruptModeDevice` (`Idle = 0xFF`): the idle register gets 0x01. -/
theorem C11_idle_write_of_sample_device :
    passesChecks interruptModeDevice = true ∧
    dataWrittenTo IDLE_Reg (PCT2075_Config interruptModeDevice []).2 = [0x01] :=
  ⟨by decide, (C11_idle_value_is_truth_value interruptModeDevice).2.2 (by decide)⟩

/-- C12: for a field value `x < 512` the upper 9 bits of `Set_Hyst_Reg_Value`
and of `Set_OS_Reg_Value` are `x` again, the truncation to 16 bits changes
nothing (the result is `x << 7`), and both encodings are injective on such
values. -/
theorem C12_nine_bit_values_are_recovered (d : PCT2075_t) (x y : Nat)
    (hx : x < 512) (hy : y < 512) :
    Set_Hyst_Reg_Value { d with Hyst := x } >>> 7 = x ∧
    Set_OS_Reg_Value { d with OS := x } >>> 7 = x ∧
    Set_Hyst_Reg_Value { d with Hyst := x } = x <<< 7 ∧
    Set_OS_Reg_Value { d with OS := x } = x <<< 7 ∧
    (Set_Hyst_Reg_Value { d with Hyst := x } = Set_Hyst_Reg_Value { d with Hyst := y } → x = y) ∧
    (Set_OS_Reg_Value { d with OS := x } = Set_OS_Reg_Value { d with OS := y } → x = y) := by
  simp only [Set_Hyst_Reg_Value, Set_OS_Reg_Value, Nat.shiftLeft_eq, Nat.shiftRight_eq_div_pow]
  refine ⟨?_, ?_, ?_, ?_, ?_, ?_⟩ <;> omega

/-- C12 at the largest 9-bit value, 511, against 4. -/
theorem C12_recovery_of_511 :
    Set_Hyst_Reg_Value { interruptModeDevice with Hyst := 511 } >>> 7 = 511 ∧
    Set_OS_Reg_Value { interruptModeDevice with OS := 511 } >>> 7 = 511 ∧
    Set_Hyst_Reg_Value { interruptModeDevice with Hyst := 511 } = 511 <<< 7 ∧
    Set_OS_Reg_Value { interruptModeDevice with OS := 511 } = 511 <<< 7 ∧
    (Set_Hyst_Reg_Value { interruptModeDevice with Hyst := 511 } =
      Set_Hyst_Reg_Value { interruptModeDevice with Hyst := 4 } → 511 = 4) ∧
    (Set_OS_Reg_Value { interruptModeDevice with OS := 511 } =
      Set_OS_Reg_Value { interruptModeDevice with OS := 4 } → 511 = 4) :=
  C12_nine_bit_values_are_recovered interruptModeDevice 511 4 (by decide) (by decide)

/-- C13: for a record that passes the checks, the data bytes written to the
hysteresis register are the most-significant byte and then the
least-significant byte of `Set_Hyst_Reg_Value`, so first * 256 + second is the
16-bit value; the same holds for the overtemperature register and
`Set_OS_Reg_Value`. -/
theorem C13_two_byte_registers_are_written_msb_first (d : PCT2075_t)
    (h : passesChecks d = true) :
    dataWrittenTo HYST_Reg (PCT2075_Config d []).2 =
      [Set_Hyst_Reg_Value d / 256, Set_Hyst_Reg_Value d % 256] ∧
    (Set_Hyst_Reg_Value d / 256) * 256 + Set_Hyst_Reg_Value d % 256 = Set_Hyst_Reg_Value d ∧
    Set_Hyst_Reg_Value d / 256 < 256 ∧ Set_Hyst_Reg_Value d % 256 < 256 ∧
    dataWrittenTo OS_Reg (PCT2075_Config d []).2 =
      [Set_OS_Reg_Value d / 256, Set_OS_Reg_Value d % 256] ∧
    (Set_OS_Reg_Value d / 256) * 256 + Set_OS_Reg_Value d % 256 = Set_OS_Reg_Value d ∧
    Set_OS_Reg_Value d / 256 < 256 ∧ Set_OS_Reg_Value d % 256 < 256 := by
  have hh := Set_Hyst_Reg_Value_lt d
  have ho := Set_OS_Reg_Value_lt d
  rw [PCT2075_Config_of_passes d [] h, shiftRight_8_mod_256 _ hh, shiftRight_8_mod_256 _ ho]
  refine ⟨?_, by omega, by omega, by omega, ?_, by omega, by omega, by omega⟩
  · simp [dataWrittenTo, List.filter, HYST_Reg, OS_Reg, IDLE_Reg, CONF_Reg]
  · simp [dataWrittenTo, List.filter, HYST_Reg, OS_Reg, IDLE_Reg, CONF_Reg]

/-- C13 at `hystAboveOsDevice` (`Hyst = 200`, `OS = 100`): the values 0x6400
and 0x3200 are written as 0x64, 0x00 and 0x32, 0x00. -/
theorem C13_bytes_of_sample_device :
    passesChecks hystAboveOsDevice = true ∧
    dataWrittenTo HYST_Reg (PCT2075_Config hystAboveOsDevice []).2 = [0x64, 0x00] ∧
    dataWrittenTo OS_Reg (PCT2075_Config hystAboveOsDevice []).2 = [0x32, 0x00] :=
  ⟨by decide,
    (C13_two_byte_registers_are_written_msb_first hystAboveOsDevice (by decide)).1,
    (C13_two_byte_registers_are_written_msb_first hystAboveOsDevice (by decide)).2.2.2.2.1⟩

/-- C14 (evaluation of the code): `faultQueue10Device` passes the five checks
with `OS_F_QUE = OS_F_QUE_10 = 0x10`; the shifted field `OS_F_QUE << 3` is
0x80, which has no bit in positions 4:3 and sets bit 7, and the OR of the
four packed fields is 0x82, above 0x1F.  The enumerator `OS_F_QUE_11` passes
the check too and shifts to 0x88. -/
theorem C14_shifted_fault_queue_of_enumerator_10 :
    passesChecks faultQueue10Device = true ∧
    faultQueue10Device.OS_F_QUE = 0x10 ∧
    faultQueue10Device.OS_F_QUE <<< 3 = 0x80 ∧
    (faultQueue10Device.OS_F_QUE <<< 3) &&& 0b00011000 = 0 ∧
    (faultQueue10Device.OP_MODE ||| (faultQueue10Device.OS_OP_MODE <<< 1)
      ||| (faultQueue10Device.OS_POL <<< 2) ||| (faultQueue10Device.OS_F_QUE <<< 3)) = 0x82 ∧
    ¬ (faultQueue10Device.OP_MODE ||| (faultQueue10Device.OS_OP_MODE <<< 1)
      ||| (faultQueue10Device.OS_POL <<< 2) ||| (faultQueue10Device.OS_F_QUE <<< 3)) ≤ 0x1F ∧
    IS_OS_F_QUE OS_F_QUE_11 = true ∧ OS_F_QUE_11 <<< 3 = 0x88 := by
  decide

/-- C15: `PCT2075_Config` checks Id, OP_MODE, OS_OP_MODE, OS_POL, OS_F_QUE in
this order and stops at the first check that fails: for an invalid record the
failed assertion is the one of the earliest field whose value is outside its
enumeration, whatever the later fields hold. -/
theorem C15_first_invalid_field_is_reported (d : PCT2075_t) (bus : List WriteCall)
    (h : d.Id ∉ PCT2075_Id_t_values ∨ d.OP_MODE ∉ Op_Mode_t_values ∨
      d.OS_OP_MODE ∉ Os_Op_Mode_t_values ∨ d.OS_POL ∉ Os_Pol_t_values ∨
      d.OS_F_QUE ∉ Os_F_Que_t_values) :
    (∃ c, firstInvalidField d = some c ∧ (PCT2075_Config d bus).1 = Outcome.assertFailed c) ∧
    (d.Id ∉ PCT2075_Id_t_values → (PCT2075_Config d bus).1 = Outcome.assertFailed Check.Id) ∧
    (d.Id ∈ PCT2075_Id_t_values → d.OP_MODE ∉ Op_Mode_t_values →
      (PCT2075_Config d bus).1 = Outcome.assertFailed Check.OP_MODE) ∧
    (d.Id ∈ PCT2075_Id_t_values → d.OP_MODE ∈ Op_Mode_t_values →
      d.OS_OP_MODE ∉ Os_Op_Mode_t_values →
      (PCT2075_Config d bus).1 = Outcome.assertFailed Check.OS_OP_MODE) ∧
    (d.Id ∈ PCT2075_Id_t_values → d.OP_MODE ∈ Op_Mode_t_values →
      d.OS_OP_MODE ∈ Os_Op_Mode_t_values → d.OS_POL ∉ Os_Pol_t_values →
      (PCT2075_Config d bus).1 = Outcome.assertFailed Check.OS_POL) ∧
    (d.Id ∈ PCT2075_Id_t_values → d.OP_MODE ∈ Op_Mode_t_values →
      d.OS_OP_MODE ∈ Os_Op_Mode_t_values → d.OS_POL ∈ Os_Pol_t_values →
      d.OS_F_QUE ∉ Os_F_Que_t_values →
      (PCT2075_Config d bus).1 = Outcome.assertFailed Check.OS_F_QUE) := by
  rw [PCT2075_Config_outcome, firstInvalidField_eq]
  simp only [← IS_PCT2075_ID_iff, ← IS_OP_MODE_iff, ← IS_OS_OP_MODE_iff, ← IS_OS_POL_iff,
    ← IS_OS_F_QUE_iff] at h ⊢
  revert h
  cases IS_PCT2075_ID d.Id <;> cases IS_OP_MODE d.OP_MODE <;>
    cases IS_OS_OP_MODE d.OS_OP_MODE <;> cases IS_OS_POL d.OS_POL <;>
    cases IS_OS_F_QUE d.OS_F_QUE <;> simp

/-- C15 at `twoBadFieldsDevice`, where `OP_MODE = 7` and `OS_F_QUE = 5` are
both invalid: the assertion on `OP_MODE`, the earlier field, is the one that
fails. -/
theorem C15_earlier_of_two_bad_fields_is_reported :
    firstInvalidField twoBadFieldsDevice = some Check.OP_MODE ∧
    twoBadFieldsDevice.OS_F_QUE ∉ Os_F_Que_t_values ∧
    (PCT2075_Config twoBadFieldsDevice []).1 = Outcome.assertFailed Check.OP_MODE :=
  ⟨by decide, by decide,
    (C15_first_invalid_field_is_reported twoBadFieldsDevice []
      (Or.inr (Or.inl (by decide)))).2.2.1 (by decide) (by decide)⟩

/-- C16: the outcome of the checks of `PCT2075_Config` does not depend on
`Hyst`, `OS` or `Idle`: two records that agree on Id, OP_MODE, OS_OP_MODE,
OS_POL and OS_F_QUE end the same way, both accepted or both rejected; a
record with `Hyst` above `OS` that passes the checks is accepted and makes
the six register writes. -/
theorem C16_checks_ignore_hyst_os_idle (d₁ d₂ : PCT2075_t) (bus : List WriteCall)
    (h1 : d₁.Id = d₂.Id) (h2 : d₁.OP_MODE = d₂.OP_MODE) (h3 : d₁.OS_OP_MODE = d₂.OS_OP_MODE)
    (h4 : d₁.OS_POL = d₂.OS_POL) (h5 : d₁.OS_F_QUE = d₂.OS_F_QUE) :
    (PCT2075_Config d₁ bus).1 = (PCT2075_Config d₂ bus).1 ∧
    passesChecks d₁ = passesChecks d₂ ∧
    (passesChecks d₁ = true → d₁.OS < d₁.Hyst →
      PCT2075_Config d₁ bus =
        (Outcome.returned,
          bus ++ [{ id := d₁.Id, reg := CONF_Reg, data := Set_Conf_Reg_Value d₁ },
            { id := d₁.Id, reg := HYST_Reg, data := (Set_Hyst_Reg_Value d₁ >>> 8) % 256 },
            { id := d₁.Id, reg := HYST_Reg, data := Set_Hyst_Reg_Value d₁ % 256 },
            { id := d₁.Id, reg := OS_Reg, data := (Set_OS_Reg_Value d₁ >>> 8) % 256 },
            { id := d₁.Id, reg := OS_Reg, data := Set_OS_Reg_Value d₁ % 256 },
            { id := d₁.Id, reg := IDLE_Reg, data := Set_Idle_Value d₁ }])) := by
  refine ⟨?_, ?_, ?_⟩
  · rw [PCT2075_Config_outcome, PCT2075_Config_outcome, h1, h2, h3, h4, h5]
  · unfold passesChecks
    rw [h1, h2, h3, h4, h5]
  · intro hp _
    exact PCT2075_Config_of_passes d₁ bus hp

/-- C16 at `hystAboveOsDevice` (`Hyst = 200` above `OS = 100`) against
`interruptModeDevice`: same outcome, and the six writes are made. -/
theorem C16_hyst_above_os_is_accepted :
    (hystAboveOsDevice.OS < hystAboveOsDevice.Hyst ∧ passesChecks hystAboveOsDevice = true) ∧
    (PCT2075_Config hystAboveOsDevice []).1 = (PCT2075_Config interruptModeDevice []).1 ∧
    PCT2075_Config hystAboveOsDevice [] =
      (Outcome.returned,
        [{ id := 0x90, reg := 1, data := 1 }, { id := 0x90, reg := 2, data := 0x64 },
          { id := 0x90, reg := 2, data := 0 }, { id := 0x90, reg := 3, data := 0x32 },
          { id := 0x90, reg := 3, data := 0 }, { id := 0x90, reg := 4, data := 1 }]) :=
  ⟨by decide,
    (C16_checks_ignore_hyst_os_idle hystAboveOsDevice interruptModeDevice []
      rfl rfl rfl rfl rfl).1,
    (C16_checks_ignore_hyst_os_idle hystAboveOsDevice interruptModeDevice []
      rfl rfl rfl rfl rfl).2.2 (by decide) (by decide)⟩

/-- C17: for `msb ≤ 0x7F` the decode of `PCT2075_Read` gives the same result
for any two least-significant bytes, and that result is `msb`. -/
theorem C17_decode_ignores_lsb (msb lsb1 lsb2 : Nat)
    (hm : msb ≤ 0x7F) (h1 : lsb1 ≤ 0xFF) (h2 : lsb2 ≤ 0xFF) :
    PCT2075_Read_decode msb lsb1 = PCT2075_Read_decode msb lsb2 ∧
    PCT2075_Read_decode msb lsb1 = some (msb : Int) := by
  have key : ∀ lsb : Nat, lsb ≤ 0xFF → PCT2075_Read_decode msb lsb = some (msb : Int) := by
    intro lsb hl
    have e : (((msb <<< 8) + lsb) >>> 5) / 8 = msb := by
      rw [Nat.shiftLeft_eq, Nat.shiftRight_eq_div_pow]
      omega
    rw [PCT2075_Read_decode_eq, e, if_pos hm]
  rw [key lsb1 h1, key lsb2 h2]
  exact ⟨rfl, rfl⟩

/-- C17 at `msb = 0x19` with the least-significant bytes 0x00 and 0xFF. -/
theorem C17_decode_of_0x19_ignores_lsb :
    PCT2075_Read_decode 0x19 0x00 = PCT2075_Read_decode 0x19 0xFF ∧
    PCT2075_Read_decode 0x19 0x00 = some 25 :=
  C17_decode_ignores_lsb 0x19 0x00 0xFF (by decide) (by decide) (by decide)

/-- C18: as shipped, with `i2c_result` still `{0, 0}` when it is decoded,
`PCT2075_Read` returns 0 for every device record, the same for any two
records. -/
theorem C18_read_returns_zero_as_shipped (d d' : PCT2075_t) :
    PCT2075_Read d = some 0 ∧ PCT2075_Read d = PCT2075_Read d' := by
  unfold PCT2075_Read
  rw [PCT2075_Read_decode_eq]
  exact ⟨by decide, rfl⟩

end PCT2075
